import Mathlib

/-!
Verification of the quiz-generation service (count-convergence state machine,
extraction/normalization, zod schema validation) and of the A2A task
coordinator (registry, scoring, selection, dispatch bookkeeping).

The embedding follows the TypeScript source:
  * `structuredJSONData` and the zod `QuizSchema`
    (agentServices/tools/quizGenerateTool/structuredResponse.ts,
     schemas/quizSchema.ts);
  * the LangGraph quiz state machine
    (generateInitialQuiz / checkQuestionCount / generateAdditionalQuiz /
     validateAndStructure / handleError / createQuizAgentGraph /
     runQuizAgentGraph);
  * the A2A coordinator (protocols/a2a/a2aCoordinator.ts).

JSON values produced by `JSON.parse` are modelled by `JValue` (numbers
restricted to integers, which covers every numeric literal this repository
constructs).  JavaScript wall-clock timestamps are omitted from attempt
records; JS floating-point arithmetic in the coordinator scores is modelled
by exact rationals.
-/

/-- A parsed JSON value (result of `JSON.parse`).  Objects are field lists
in insertion order; post-parse objects have unique keys. -/
inductive JValue where
  | str : String → JValue
  | num : Int → JValue
  | jbool : Bool → JValue
  | jnull : JValue
  | arr : List JValue → JValue
  | obj : List (String × JValue) → JValue

/-- Field access `p[key]` on a parsed JS object. -/
def jlookup : List (String × JValue) → String → Option JValue
  | [], _ => none
  | (k, v) :: rest, key => if k = key then some v else jlookup rest key

/-- The `typeof`-style type name zod reports for a received value. -/
def typeName : JValue → String
  | .str _ => "string"
  | .num _ => "number"
  | .jbool _ => "boolean"
  | .jnull => "null"
  | .arr _ => "array"
  | .obj _ => "object"

/-- `z.infer` of the `Answer` schema (schemas/quizSchema.ts line 4). -/
structure Answer where
  answer : String
deriving Repr, DecidableEq

/-- `z.infer` of the `Question` schema (schemas/quizSchema.ts lines 9-13). -/
structure Question where
  question : String
  correct_answer : String
  answers : List Answer
deriving Repr, DecidableEq

/-- `z.infer` of the inner `data` object of `QuizSchema`. -/
structure QuizData where
  minItems : Int
  maxItems : Int
  quiz_questions : List Question
deriving Repr, DecidableEq

/-- `z.infer` of `QuizSchema` (schemas/quizSchema.ts lines 16-22),
exported there as `StructuredResponse`. -/
structure StructuredResponse where
  data : QuizData
deriving Repr, DecidableEq

/-- Issues of a failed zod parse (we keep each issue's `message`, the only
part the source reads). -/
def exceptIssues : Except (List String) α → List String
  | .ok _ => []
  | .error is => is

def exceptToOption : Except (List String) α → Option α
  | .ok a => some a
  | .error _ => none

def exceptIsOk : Except ε α → Bool
  | .ok _ => true
  | .error _ => false

/-- zod parse of the `Answer` schema: an object with a string `answer`. -/
def parseAnswer : JValue → Except (List String) Answer
  | .obj fields =>
    match jlookup fields "answer" with
    | some (.str s) => .ok ⟨s⟩
    | some v => .error ["Expected string, received " ++ typeName v]
    | none => .error ["Required"]
  | v => .error ["Expected object, received " ++ typeName v]

/-- zod parse of a required string field of an object schema. -/
def parseStringField (fields : List (String × JValue)) (key : String) :
    Except (List String) String :=
  match jlookup fields key with
  | some (.str s) => .ok s
  | some v => .error ["Expected string, received " ++ typeName v]
  | none => .error ["Required"]

/-- zod parse of `z.array(Answer).length(5)`: element issues and the
exact-length issue are collected together, as zod does. -/
def parseAnswers (v : JValue) : Except (List String) (List Answer) :=
  match v with
  | .arr elems =>
      let lenIssues :=
        if elems.length = 5 then [] else ["Array must contain exactly 5 element(s)"]
      let results := elems.map parseAnswer
      let elemIssues := (results.map exceptIssues).flatten
      match lenIssues ++ elemIssues with
      | [] => .ok (results.filterMap exceptToOption)
      | issues => .error issues
  | w => .error ["Expected array, received " ++ typeName w]

/-- zod parse of the `Question` schema: required string `question` and
`correct_answer`, plus `answers` of exactly 5 `Answer`s.  Note that
`correct_answer` is only required to be a string: the schema never relates
it to the option labels inside `answers`, and never requires the five
options to be distinct. -/
def parseQuestion : JValue → Except (List String) Question
  | .obj fields =>
      let qRes := parseStringField fields "question"
      let caRes := parseStringField fields "correct_answer"
      let ansRes :=
        match jlookup fields "answers" with
        | some v => parseAnswers v
        | none => (.error ["Required"] : Except (List String) (List Answer))
      match qRes, caRes, ansRes with
      | .ok q, .ok ca, .ok ans => .ok ⟨q, ca, ans⟩
      | _, _, _ => .error (exceptIssues qRes ++ exceptIssues caRes ++ exceptIssues ansRes)
  | v => .error ["Expected object, received " ++ typeName v]

/-- zod parse of `z.number().int().min(20).max(20)` (the `minItems` /
`maxItems` fields).  `JValue` numbers are integers, so `.int()` is
automatically satisfied. -/
def parseCount20 (fields : List (String × JValue)) (key : String) :
    Except (List String) Int :=
  match jlookup fields key with
  | some (.num n) =>
      let lo := if n < 20 then ["Number must be greater than or equal to 20"] else []
      let hi := if n > 20 then ["Number must be less than or equal to 20"] else []
      match lo ++ hi with
      | [] => .ok n
      | issues => .error issues
  | some v => .error ["Expected number, received " ++ typeName v]
  | none => .error ["Required"]

/-- zod parse of `z.array(Question).length(20)`. -/
def parseQuizQuestions (v : JValue) : Except (List String) (List Question) :=
  match v with
  | .arr elems =>
      let lenIssues :=
        if elems.length = 20 then [] else ["Array must contain exactly 20 element(s)"]
      let results := elems.map parseQuestion
      let elemIssues := (results.map exceptIssues).flatten
      match lenIssues ++ elemIssues with
      | [] => .ok (results.filterMap exceptToOption)
      | issues => .error issues
  | w => .error ["Expected array, received " ++ typeName w]

/-- `QuizSchema.parse` (schemas/quizSchema.ts lines 16-22): a top-level
object with a `data` object holding `minItems`, `maxItems` and the
20-element `quiz_questions` array. -/
def quizSchemaParse (candidate : JValue) : Except (List String) StructuredResponse :=
  match candidate with
  | .obj fields =>
    match jlookup fields "data" with
    | some (.obj dfields) =>
        let mi := parseCount20 dfields "minItems"
        let ma := parseCount20 dfields "maxItems"
        let qq :=
          match jlookup dfields "quiz_questions" with
          | some v => parseQuizQuestions v
          | none => (.error ["Required"] : Except (List String) (List Question))
        match mi, ma, qq with
        | .ok a, .ok b, .ok qs => .ok ⟨⟨a, b, qs⟩⟩
        | _, _, _ => .error (exceptIssues mi ++ exceptIssues ma ++ exceptIssues qq)
    | some v => .error ["Expected object, received " ++ typeName v]
    | none => .error ["Required"]
  | v => .error ["Expected object, received " ++ typeName v]

/-- The fail-fast count-mismatch message thrown for a bare array or a
`quiz_questions` array of the wrong length
(structuredResponse.ts lines 39 and 46): it names the actual count and the
expected count 20. -/
def bareCountMsg (n : Nat) : String :=
  "Quiz has " ++ toString n ++
    " questions but needs exactly 20. Please call generate_quiz again with instruction to create exactly 20 questions."

/-- The wrapper shape built for a bare array or a `quiz_questions` field
(structuredResponse.ts lines 41 and 48). -/
def wrapQuestions (qs : List JValue) : JValue :=
  .obj [("data", .obj [("minItems", .num 20), ("maxItems", .num 20),
                       ("quiz_questions", .arr qs)])]

/-- JS `p.data && typeof p.data === "object"`:  true for objects and arrays
(arrays are `typeof "object"` and truthy), false for `null` (falsy) and for
primitives. -/
def isTruthyObject : JValue → Bool
  | .obj _ => true
  | .arr _ => true
  | _ => false

/-- The normalization step of `structuredJSONData`
(structuredResponse.ts lines 36-56), applied to the parsed JSON value.
Errors are the messages of the `throw new Error(...)` statements. -/
def normalizeCandidate (parsed : JValue) : Except String JValue :=
  match parsed with
  | .arr items =>
      if items.length ≠ 20 then .error (bareCountMsg items.length)
      else .ok (wrapQuestions items)
  | .obj fields =>
      match jlookup fields "quiz_questions" with
      | some (.arr qs) =>
          if qs.length ≠ 20 then .error (bareCountMsg qs.length)
          else .ok (wrapQuestions qs)
      | _ =>
          match jlookup fields "data" with
          | some d =>
              if isTruthyObject d then .ok (.obj fields)
              else .error "JSON missing quiz_questions array. Please call generate_quiz to create proper quiz format."
          | none => .error "JSON missing quiz_questions array. Please call generate_quiz to create proper quiz format."
  | _ => .error "Invalid data format. Please call generate_quiz to create quiz questions first."

/-- JS `String.prototype.includes`, over the character list. -/
def strIncludes (s pat : String) : Bool :=
  pat.isEmpty || decide (2 ≤ (s.splitOn pat).length)

/-- The message built for a zod `issues` array by the `catch` handler
(structuredResponse.ts lines 64-72).  `issues.find(... .includes("exactly 20"))`
locates an exact-length issue; otherwise the template literal stringifies
each issue object as `[object Object]`. -/
def zodCatchMessage (issues : List String) : String :=
  if issues.any (fun m => strIncludes m "exactly 20") then
    "Validation failed: " ++
      "Quiz must have exactly 20 questions. Please call generate_quiz again and ensure you create exactly 20 questions."
  else
    "Validation failed: " ++
      String.intercalate "," (issues.map (fun _ => "[object Object]")) ++
      ". Please call generate_quiz again with correct format."

/-- `structuredJSONData` (structuredResponse.ts lines 6-75) on the parsed
JSON value (the preceding string-parsing stage, lines 10-33, is the
caller's concern: the inputs here are values `JSON.parse` produced).
The second component records whether `QuizSchema.parse` was reached. -/
def structuredJSONDataTraced (parsed : JValue) :
    Except String StructuredResponse × Bool :=
  match normalizeCandidate parsed with
  | .error e => (.error ("Structuring failed: " ++ e), false)
  | .ok candidate =>
    match quizSchemaParse candidate with
    | .ok v => (.ok v, true)
    | .error issues => (.error (zodCatchMessage issues), true)

/-- `structuredJSONData`: result only. -/
def structuredJSONData (parsed : JValue) : Except String StructuredResponse :=
  (structuredJSONDataTraced parsed).1

/-! ## The count-convergence state machine (LangGraph quiz agent) -/

/-- One entry of the run's `attemptHistory`.  Fields mirror the
`attemptDetails` objects built by `generateInitialQuiz` (which sets
`targetCount`) and `generateAdditionalQuiz` (which sets
`questionsRequested` / `totalAfterCombining`); absent fields are `none`.
The wall-clock `timestamp` is omitted. -/
structure AttemptDetail where
  attemptNumber : Nat
  questionsRequested : Option Nat
  questionsGenerated : Nat
  targetCount : Option Nat
  totalAfterCombining : Option Nat
  success : Bool
  error : Option String
deriving Repr, DecidableEq

/-- The dynamically-typed `finalResult` field: `null`, a status-tag string
(`"ready_for_validation"` or a `need_..._more` string), or the validated
quiz object. -/
inductive FinalResult where
  | nullf : FinalResult
  | tag : String → FinalResult
  | validated : StructuredResponse → FinalResult
deriving Repr, DecidableEq

/-- The router condition `state.finalResult === "ready_for_validation"`. -/
def FinalResult.isReady : FinalResult → Bool
  | .tag s => s == "ready_for_validation"
  | _ => false

/-- JS `String.prototype.startsWith`, over the character list. -/
def strStartsWith (s pre : String) : Bool :=
  s.data.take pre.data.length == pre.data

/-- The router condition `state.finalResult?.startsWith("need_")`. -/
def FinalResult.isNeedMore : FinalResult → Bool
  | .tag s => strStartsWith s "need_"
  | _ => false

/-- The shapes stored in `lastAttemptDetails` by the various nodes. -/
inductive LastDetails where
  | nulld : LastDetails
  | attempt : AttemptDetail → LastDetails
  | contentSnippet : String → LastDetails
  | countReport : Nat → Nat → Nat → List AttemptDetail → LastDetails
  | validationReport : String → Nat → Option JValue → LastDetails

/-- The graph state (`QuizState` annotation root in generateQuiz.ts).
LangGraph merges a node's partial update into the state by replacing the
returned fields; nodes below therefore return the full updated record. -/
structure QuizState where
  userPrompt : String
  collectedQuestions : List JValue
  targetCount : Nat
  attemptCount : Nat
  maxAttempts : Nat
  finalResult : FinalResult
  error : Option String
  attemptHistory : List AttemptDetail
  currentStatus : String
  lastAttemptDetails : LastDetails

/-- Outcome of one `generateQuiz` call as seen by the graph nodes:
  * `thrown msg` — the call threw (empty prompt, empty/malformed LLM
    output, transport error, ...); `msg` is the thrown message;
  * `badJson parseMsg snippet` — the call returned content whose first
    brace-delimited block fails `JSON.parse` at the node (unreachable for
    content `generateQuiz` itself validated, but present in the node code);
  * `content fields` — the call returned content whose first
    brace-delimited block parses to the object `fields`. -/
inductive GenResult where
  | thrown : String → GenResult
  | badJson : String → String → GenResult
  | content : List (String × JValue) → GenResult

/-- The external, non-deterministic generator: the outcome of the i-th
generation call of a run (0-indexed; call i is made when `attemptCount`
equals i). -/
def GenOracle := Nat → GenResult

/-- `parsed.quiz_questions || []` on the object parsed by a node.
A successful `generateQuiz` call guarantees the field is an array
(generateQuiz.ts lines 184-191), so non-array values default to `[]`. -/
def questionsOf (fields : List (String × JValue)) : List JValue :=
  match jlookup fields "quiz_questions" with
  | some (.arr qs) => qs
  | _ => []

/-- Node 1, `generateInitialQuiz`: first generation pass. -/
def generateInitialQuiz (gen : GenResult) (state : QuizState) : QuizState :=
  match gen with
  | .thrown msg =>
      let detail : AttemptDetail :=
        { attemptNumber := state.attemptCount + 1,
          questionsRequested := none,
          questionsGenerated := 0,
          targetCount := some state.targetCount,
          totalAfterCombining := none,
          success := false,
          error := some msg }
      { state with
        error := some ("Initial generation failed: " ++ msg),
        currentStatus := "initial_generation_failed",
        attemptCount := state.attemptCount + 1,
        attemptHistory := state.attemptHistory ++ [detail],
        lastAttemptDetails := .attempt detail }
  | .badJson parseMsg snippet =>
      { state with
        error := some ("JSON parsing failed: " ++ parseMsg ++
          ". LLM may have returned malformed JSON."),
        currentStatus := "json_parsing_failed",
        lastAttemptDetails := .contentSnippet snippet }
  | .content fields =>
      let questions := questionsOf fields
      let n := questions.length
      let detail : AttemptDetail :=
        { attemptNumber := state.attemptCount + 1,
          questionsRequested := none,
          questionsGenerated := n,
          targetCount := some state.targetCount,
          totalAfterCombining := none,
          success := true,
          error := none }
      { state with
        collectedQuestions := questions,
        attemptCount := state.attemptCount + 1,
        attemptHistory := state.attemptHistory ++ [detail],
        currentStatus := "generated_" ++ toString n ++ "_questions",
        lastAttemptDetails := .attempt detail }

/-- Node 2, `checkQuestionCount`: compares the accumulation to the target
and routes (by setting `finalResult` / `error`). -/
def checkQuestionCount (state : QuizState) : QuizState :=
  let currentCount := state.collectedQuestions.length
  let needed := state.targetCount - currentCount
  if currentCount = state.targetCount then
    { state with
      finalResult := .tag "ready_for_validation",
      currentStatus := "perfect_count_" ++ toString currentCount ++ "_questions" }
  else if currentCount > state.targetCount then
    { state with
      collectedQuestions := state.collectedQuestions.take state.targetCount,
      finalResult := .tag "ready_for_validation",
      currentStatus := "trimmed_to_" ++ toString state.targetCount ++ "_questions" }
  else if state.attemptCount ≥ state.maxAttempts then
    { state with
      error := some ("Maximum " ++ toString state.maxAttempts ++
        " attempts reached. Only generated " ++ toString currentCount ++ "/" ++
        toString state.targetCount ++ " questions."),
      currentStatus := "max_attempts_exceeded",
      lastAttemptDetails := .countReport currentCount state.targetCount
        state.attemptCount state.attemptHistory }
  else
    { state with
      finalResult := .tag ("need_" ++ toString needed ++ "_more"),
      currentStatus := "need_" ++ toString needed ++ "_more_questions_attempt_" ++
        toString state.attemptCount }

/-- Node 3, `generateAdditionalQuiz`: top-up generation; appends new
questions after the existing ones.  The JSON-parse-failure branch sets
`error` without touching `attemptCount` or the history, exactly as the
source does. -/
def generateAdditionalQuiz (gen : GenResult) (state : QuizState) : QuizState :=
  let currentCount := state.collectedQuestions.length
  let needed := state.targetCount - currentCount
  match gen with
  | .thrown msg =>
      let detail : AttemptDetail :=
        { attemptNumber := state.attemptCount + 1,
          questionsRequested := some needed,
          questionsGenerated := 0,
          targetCount := none,
          totalAfterCombining := none,
          success := false,
          error := some msg }
      { state with
        error := some ("Additional generation failed: " ++ msg),
        currentStatus := "additional_generation_failed",
        attemptCount := state.attemptCount + 1,
        attemptHistory := state.attemptHistory ++ [detail],
        lastAttemptDetails := .attempt detail }
  | .badJson parseMsg _ =>
      { state with
        error := some ("Additional questions JSON parsing failed: " ++ parseMsg),
        currentStatus := "additional_json_parsing_failed" }
  | .content fields =>
      let newQuestions := questionsOf fields
      let combined := state.collectedQuestions ++ newQuestions
      let detail : AttemptDetail :=
        { attemptNumber := state.attemptCount + 1,
          questionsRequested := some needed,
          questionsGenerated := newQuestions.length,
          targetCount := none,
          totalAfterCombining := some combined.length,
          success := true,
          error := none }
      { state with
        collectedQuestions := combined,
        attemptCount := state.attemptCount + 1,
        attemptHistory := state.attemptHistory ++ [detail],
        currentStatus := "added_" ++ toString newQuestions.length ++ "_total_" ++
          toString combined.length,
        lastAttemptDetails := .attempt detail }

/-- Node 4, `validateAndStructure`: stringifies
`{ quiz_questions: collectedQuestions }` and hands it to
`structuredJSONData` (the round-trip through `JSON.stringify` /
`JSON.parse` is the identity on `JValue`s). -/
def validateAndStructure (state : QuizState) : QuizState :=
  match structuredJSONData (.obj [("quiz_questions", .arr state.collectedQuestions)]) with
  | .ok validated =>
      { state with
        finalResult := .validated validated,
        currentStatus := "validation_successful" }
  | .error msg =>
      { state with
        error := some ("Schema validation failed: " ++ msg ++ ". Generated " ++
          toString state.collectedQuestions.length ++
          " questions but schema validation rejected them."),
        currentStatus := "validation_failed",
        lastAttemptDetails := .validationReport msg state.collectedQuestions.length
          state.collectedQuestions.head? }

/-- The fields interpolated into the error thrown by `handleError`
(generateQuiz.ts lines 433-460): the thrown message combines the last
error, current status, attempt counts, target vs. achieved count, the
full attempt history, and a suggestion chosen by whether the attempt
budget was exhausted. -/
structure ErrorReport where
  error : Option String
  currentStatus : String
  attempts : Nat
  maxAttempts : Nat
  targetCount : Nat
  achievedCount : Nat
  attemptHistory : List AttemptDetail
  lastAttemptDetails : LastDetails
  suggestion : String

/-- Node 5, `handleError`: synthesizes the failure report and throws. -/
def handleError (state : QuizState) : ErrorReport :=
  { error := state.error,
    currentStatus := state.currentStatus,
    attempts := state.attemptCount,
    maxAttempts := state.maxAttempts,
    targetCount := state.targetCount,
    achievedCount := state.collectedQuestions.length,
    attemptHistory := state.attemptHistory,
    lastAttemptDetails := state.lastAttemptDetails,
    suggestion :=
      if state.attemptCount ≥ state.maxAttempts then
        "Try with a different topic or simpler requirements"
      else
        "The LLM may need clearer instructions or the topic may be too complex" }

/-- Outcome of a graph run: the validated quiz returned from END, or the
report thrown by `handle_error`. -/
inductive RunResult where
  | validated : StructuredResponse → RunResult
  | failed : ErrorReport → RunResult

def RunResult.isValidated : RunResult → Bool
  | .validated _ => true
  | .failed _ => false

/-- Drives the compiled graph from the `check_count` node, mirroring the
conditional edges of `createQuizAgentGraph`:
  * after `check_count`: `error` → handle_error; `"ready_for_validation"`
    → validate; a `need_...` tag → generate_additional; otherwise
    handle_error;
  * after `generate_additional`: `error` → handle_error, else back to
    `check_count`;
  * after `validate`: `error` → handle_error, else END.
`calls` counts generation calls made so far (it indexes the oracle, and
always equals `attemptCount` on the paths that keep looping).  `fuel`
bounds the recursion; the loop re-enters `check_count` only after
incrementing `attemptCount`, and stops once `attemptCount ≥ maxAttempts`,
so any `fuel > maxAttempts` makes the zero-fuel branch unreachable. -/
def runFromCheck (oracle : GenOracle) : Nat → Nat → QuizState → RunResult × Nat
  | 0, calls, state => (.failed (handleError state), calls)
  | fuel + 1, calls, state =>
    let s1 := checkQuestionCount state
    if s1.error.isSome then (.failed (handleError s1), calls)
    else if s1.finalResult.isReady then
      let s2 := validateAndStructure s1
      if s2.error.isSome then (.failed (handleError s2), calls)
      else
        match s2.finalResult with
        | .validated v => (.validated v, calls)
        | _ => (.failed (handleError s2), calls)
    else if s1.finalResult.isNeedMore then
      let s2 := generateAdditionalQuiz (oracle calls) s1
      if s2.error.isSome then (.failed (handleError s2), calls + 1)
      else runFromCheck oracle fuel (calls + 1) s2
    else (.failed (handleError s1), calls)

/-- The initial state built by `runQuizAgentGraph`. -/
def initialQuizState (prompt : String) (targetCount maxAttempts : Nat) : QuizState :=
  { userPrompt := prompt,
    collectedQuestions := [],
    targetCount := targetCount,
    attemptCount := 0,
    maxAttempts := maxAttempts,
    finalResult := .nullf,
    error := none,
    attemptHistory := [],
    currentStatus := "initializing",
    lastAttemptDetails := .nulld }

/-- `runQuizAgentGraph` (generateQuiz.ts lines 510-540): builds the initial
state, runs `generate_initial`, then follows the unconditional edge into
`check_count` and the conditional edges from there.  Returns the outcome
together with the number of generation calls made.  (The source defaults
`targetCount` to 20 and `maxAttempts` to 4; they are explicit here.) -/
def runQuizAgentGraph (oracle : GenOracle) (prompt : String)
    (targetCount maxAttempts : Nat) : RunResult × Nat :=
  let s1 := generateInitialQuiz (oracle 0) (initialQuizState prompt targetCount maxAttempts)
  runFromCheck oracle (maxAttempts + 1) 1 s1

/-! ## The A2A task coordinator (a2aCoordinator.ts) -/

/-- Worker status (`"active" | "busy" | "inactive"`). -/
inductive AgentStatus where
  | active : AgentStatus
  | busy : AgentStatus
  | inactive : AgentStatus
deriving Repr, DecidableEq

/-- Rolling performance metrics of a pool entry. -/
structure AgentPerformance where
  tasksCompleted : Nat
  averageTime : ℚ
  successRate : ℚ
deriving Repr, DecidableEq

/-- A capability advertised by an agent (`AgentCapability`; only `name` is
read by the coordinator). -/
structure AgentCapability where
  name : String
  description : String
deriving Repr, DecidableEq

/-- `AgentInfo` (a2aAgent.ts): identity and advertised capabilities. -/
structure AgentInfo where
  id : String
  name : String
  description : String
  capabilities : List AgentCapability
deriving Repr, DecidableEq

/-- One entry of the coordinator's `AgentPool`.  `hasAgent` models whether
the optional `agent` handle is present (direct communication) — the
coordinator only branches on its presence. -/
structure AgentData where
  info : AgentInfo
  hasAgent : Bool
  status : AgentStatus
  currentTasks : List String
  performance : AgentPerformance
deriving Repr, DecidableEq

/-- `TaskRequest` (a2aCoordinator.ts lines 5-13); `params` / `metadata`
are opaque to the coordinator and omitted.  `priority` is a JS number. -/
structure TaskRequest where
  id : String
  type : String
  requiredCapabilities : List String
  priority : ℚ
  timeout : ℚ
deriving Repr, DecidableEq

/-- `TaskResult` (a2aCoordinator.ts lines 15-22); the dispatched payload is
opaque. -/
structure TaskResult where
  id : String
  success : Bool
  result : Option String
  error : Option String
  agentId : String
  duration : ℚ
deriving Repr, DecidableEq

/-- Coordinator state: the agent pool in registration order (agent ids are
UUID strings, so JS object-key enumeration preserves insertion order), and
the task history.  `taskQueue` is never consumed by the source and
`activeTasks` is set and deleted within a single `executeTask`, so neither
carries state across the operations modelled here. -/
structure CoordinatorState where
  agents : List (String × AgentData)
  taskHistory : List TaskResult

def lookupAgent : List (String × AgentData) → String → Option AgentData
  | [], _ => none
  | (k, d) :: rest, key => if k = key then some d else lookupAgent rest key

/-- `this.agents[id] = d`: replaces in place when the key exists (JS keeps
the original key position), appends otherwise. -/
def setAgent : List (String × AgentData) → String → AgentData → List (String × AgentData)
  | [], key, d => [(key, d)]
  | (k, old) :: rest, key, d =>
      if k = key then (key, d) :: rest else (k, old) :: setAgent rest key d

/-- The fresh pool entry `registerAgent` creates: status `active`, no
current tasks, `averageTime` 0 and `successRate` 1, live agent handle. -/
def freshEntry (info : AgentInfo) : AgentData :=
  { info := info,
    hasAgent := true,
    status := .active,
    currentTasks := [],
    performance := { tasksCompleted := 0, averageTime := 0, successRate := 1 } }

/-- `registerAgent` (lines 55-80). -/
def registerAgent (st : CoordinatorState) (info : AgentInfo) : CoordinatorState :=
  { st with agents := setAgent st.agents info.id (freshEntry info) }

/-- `calculateAgentScore` (lines 237-263).  JS float arithmetic is modelled
by exact rationals.  Note the guard `averageTime > 0`: an agent with
`averageTime = 0` receives no speed bonus at all, while any agent with
`0 < averageTime < 50000` receives a positive one. -/
def calculateAgentScore (agentData : AgentData) (request : TaskRequest) : ℚ :=
  let score1 : ℚ := 0 + 100
  let score2 := score1 + agentData.performance.successRate * 50
  let score3 := if agentData.status = .busy then score2 - 30 else score2
  let score4 := score3 - (agentData.currentTasks.length : ℚ) * 10
  let score5 :=
    if agentData.performance.averageTime > 0 then
      score4 + max 0 (50 - agentData.performance.averageTime / 1000)
    else score4
  score5 + request.priority * 10

/-- The filter of `selectBestAgent`: status not `inactive`, and every
required capability among the agent's capability names. -/
def eligibleFor (request : TaskRequest) (agentData : AgentData) : Bool :=
  (if agentData.status = .inactive then false else true) &&
    request.requiredCapabilities.all (fun capability =>
      agentData.info.capabilities.any (fun c => c.name == capability))

structure ScoredAgent where
  agentId : String
  score : ℚ

/-- Stable insertion of one element into a list sorted by descending
score: a later element is placed after every earlier element of equal
score. -/
def insertByScoreDesc (x : ScoredAgent) : List ScoredAgent → List ScoredAgent
  | [] => [x]
  | y :: ys => if x.score ≥ y.score then x :: y :: ys else y :: insertByScoreDesc x ys

/-- Stable sort by descending score.  `Array.prototype.sort` with the
comparator `(a, b) => b.score - a.score` is a stable descending sort, and
a stable sort by a fixed key is extensionally unique, so this insertion
sort computes the same list as the source. -/
def sortByScoreDesc : List ScoredAgent → List ScoredAgent
  | [] => []
  | x :: xs => insertByScoreDesc x (sortByScoreDesc xs)

/-- `selectBestAgent` (lines 213-232): filter, score, sort descending,
take the first. -/
def selectBestAgent (st : CoordinatorState) (request : TaskRequest) : Option String :=
  let suitable := st.agents.filter (fun p => eligibleFor request p.2)
  let scored := suitable.map (fun p =>
    ScoredAgent.mk p.1 (calculateAgentScore p.2 request))
  match sortByScoreDesc scored with
  | [] => none
  | best :: _ => some best.agentId

/-- The metric update of `updateAgentPerformance` (lines 268-282): exact
incremental means of duration and of the 0/1 success indicator. -/
def updatePerf (perf : AgentPerformance) (duration : ℚ) (success : Bool) :
    AgentPerformance :=
  let totalTime := perf.averageTime * (perf.tasksCompleted : ℚ) + duration
  let completed := perf.tasksCompleted + 1
  let totalSuccess :=
    perf.successRate * ((completed : ℚ) - 1) + (if success then 1 else 0)
  { tasksCompleted := completed,
    averageTime := totalTime / (completed : ℚ),
    successRate := totalSuccess / (completed : ℚ) }

/-- `updateAgentPerformance`: no-op when the agent is unknown. -/
def updateAgentPerformance (st : CoordinatorState) (agentId : String)
    (duration : ℚ) (success : Bool) : CoordinatorState :=
  match lookupAgent st.agents agentId with
  | none => st
  | some d =>
      let d2 := { d with performance := updatePerf d.performance duration success }
      { st with agents := setAgent st.agents agentId d2 }

/-- The externally-determined outcome of one dispatch
(`agent.sendRequest(...)`): the promise resolves with a payload or rejects
(timeout included), after `duration` milliseconds. -/
structure DispatchOutcome where
  outcome : Except String String
  duration : ℚ

/-- The `finally` cleanup of `executeTask`: restore `active`, drop the
task id from `currentTasks`. -/
def cleanupAfterTask (st : CoordinatorState) (agentId taskId : String) :
    CoordinatorState :=
  match lookupAgent st.agents agentId with
  | none => st
  | some d =>
      let d2 := { d with
        status := AgentStatus.active,
        currentTasks := d.currentTasks.filter (fun i => i ≠ taskId) }
      { st with agents := setAgent st.agents agentId d2 }

/-- `executeTask` (lines 128-208).  `Except.error` models an exception
escaping to the caller: that happens only when `agentId` is not in the
pool (the JS code would then fail reading `agentData.status` of
`undefined`, before its `try`), which neither entry point allows.  Inside
the `try`, a dispatch failure — including the capability-missing and
not-implemented throws — is caught and converted into a failed
`TaskResult`; completion always runs the cleanup. -/
def executeTask (dispatch : DispatchOutcome) (st : CoordinatorState)
    (request : TaskRequest) (agentId : String) :
    Except String (CoordinatorState × TaskResult) :=
  match lookupAgent st.agents agentId with
  | none => .error "TypeError: Cannot read properties of undefined"
  | some agentData =>
    let d1 := { agentData with
      status := .busy,
      currentTasks := agentData.currentTasks ++ [request.id] }
    let st1 := { st with agents := setAgent st.agents agentId d1 }
    let attempt : Except String String :=
      if agentData.hasAgent then dispatch.outcome
      else if agentData.info.capabilities.any (fun c => c.name == request.type) then
        .error "External agent execution not implemented"
      else
        .error ("Agent " ++ agentId ++ " does not support capability: " ++ request.type)
    match attempt with
    | .ok payload =>
        let st2 := updateAgentPerformance st1 agentId dispatch.duration true
        let taskResult : TaskResult :=
          { id := request.id, success := true, result := some payload,
            error := none, agentId := agentId, duration := dispatch.duration }
        let st3 := { st2 with taskHistory := st2.taskHistory ++ [taskResult] }
        .ok (cleanupAfterTask st3 agentId request.id, taskResult)
    | .error e =>
        let st2 := updateAgentPerformance st1 agentId dispatch.duration false
        let taskResult : TaskResult :=
          { id := request.id, success := false, result := none,
            error := some e, agentId := agentId, duration := dispatch.duration }
        let st3 := { st2 with taskHistory := st2.taskHistory ++ [taskResult] }
        .ok (cleanupAfterTask st3 agentId request.id, taskResult)

/-- `submitTask` (lines 98-107): auto-select, or throw
`"No suitable agent available for this task"`. -/
def submitTask (dispatch : DispatchOutcome) (st : CoordinatorState)
    (request : TaskRequest) : Except String (CoordinatorState × TaskResult) :=
  match selectBestAgent st request with
  | none => .error "No suitable agent available for this task"
  | some agentId => executeTask dispatch st request agentId

/-- `submitTaskToAgent` (lines 112-123): explicit target; throws when the
target is unknown or inactive. -/
def submitTaskToAgent (dispatch : DispatchOutcome) (st : CoordinatorState)
    (request : TaskRequest) (preferredAgentId : String) :
    Except String (CoordinatorState × TaskResult) :=
  match lookupAgent st.agents preferredAgentId with
  | none => .error ("Agent not found: " ++ preferredAgentId)
  | some agentData =>
      if agentData.status = .inactive then
        .error ("Agent is inactive: " ++ preferredAgentId)
      else executeTask dispatch st request preferredAgentId

/-! ## Derived run descriptions and concrete fixtures -/

def RunResult.reportOf : RunResult → Option ErrorReport
  | .failed r => some r
  | .validated _ => none

/-- The accumulation after the first `j` generation calls when call `i`
contributes the questions `qss i`: existing items first, then new ones. -/
def accumUpTo (qss : Nat → List JValue) : Nat → List JValue
  | 0 => []
  | j + 1 => accumUpTo qss j ++ qss j

/-- The history entry written by `generateInitialQuiz` for a successful
first call. -/
def initialDetail (qss : Nat → List JValue) (N : Nat) : AttemptDetail :=
  { attemptNumber := 1,
    questionsRequested := none,
    questionsGenerated := (qss 0).length,
    targetCount := some N,
    totalAfterCombining := none,
    success := true,
    error := none }

/-- The history entry written by `generateAdditionalQuiz` for a successful
top-up call number `j` (0-indexed). -/
def topUpDetail (qss : Nat → List JValue) (N j : Nat) : AttemptDetail :=
  { attemptNumber := j + 1,
    questionsRequested := some (N - (accumUpTo qss j).length),
    questionsGenerated := (qss j).length,
    targetCount := none,
    totalAfterCombining := some (accumUpTo qss (j + 1)).length,
    success := true,
    error := none }

def detailAt (qss : Nat → List JValue) (N : Nat) : Nat → AttemptDetail
  | 0 => initialDetail qss N
  | j + 1 => topUpDetail qss N (j + 1)

/-- The attempt history after `j` successful generation calls. -/
def histUpTo (qss : Nat → List JValue) (N : Nat) : Nat → List AttemptDetail
  | 0 => []
  | j + 1 => histUpTo qss N j ++ [detailAt qss N j]

/-- The failure report `handleError` throws when all `M` generation calls
succeeded but the accumulation stayed below the target. -/
def maxedReport (qss : Nat → List JValue) (N M : Nat) : ErrorReport :=
  { error := some ("Maximum " ++ toString M ++ " attempts reached. Only generated " ++
      toString (accumUpTo qss M).length ++ "/" ++ toString N ++ " questions."),
    currentStatus := "max_attempts_exceeded",
    attempts := M,
    maxAttempts := M,
    targetCount := N,
    achievedCount := (accumUpTo qss M).length,
    attemptHistory := histUpTo qss N M,
    lastAttemptDetails := .countReport (accumUpTo qss M).length N M (histUpTo qss N M),
    suggestion := "Try with a different topic or simpler requirements" }

/-- A question object satisfying every per-item constraint of `QuizSchema`. -/
def goodQuestionJ : JValue :=
  .obj [("question", .str "What is the capital of France?"),
        ("correct_answer", .str "A"),
        ("answers", .arr (List.replicate 5 (.obj [("answer", .str "A. Paris")])))]

/-- A question object with the given text and designated-correct marker,
and five identical well-formed options labelled `A`. -/
def mkQuestionJ (q ca : String) : JValue :=
  .obj [("question", .str q), ("correct_answer", .str ca),
        ("answers", .arr (List.replicate 5 (.obj [("answer", .str "A. Paris")])))]

/-- A question object with only four options. -/
def fourOptionQuestionJ : JValue :=
  .obj [("question", .str "q"), ("correct_answer", .str "A"),
        ("answers", .arr (List.replicate 4 (.obj [("answer", .str "A. Paris")])))]

/-- Oracle for the C1 counterexample: every call returns exactly one
well-formed question (the number requested when `targetCount = 1`). -/
def oracleC1 : GenOracle := fun _ => .content [("quiz_questions", .arr [goodQuestionJ])]

/-- Oracle for the C5 counterexample: the first call returns two
well-formed questions, the second call (a top-up) throws. -/
def oracleC5 : GenOracle := fun i =>
  if i = 0 then .content [("quiz_questions", .arr [goodQuestionJ, goodQuestionJ])]
  else .thrown "boom"

/-- Per-call questions for the C7 witness: one question per call. -/
def qssC7 : Nat → List JValue := fun _ => [goodQuestionJ]

def oracleC7 : GenOracle := fun _ => .content [("quiz_questions", .arr [goodQuestionJ])]

/-- Oracle for the C6 witness: the first call returns three questions. -/
def oracleC6 : GenOracle := fun _ =>
  .content [("quiz_questions", .arr [goodQuestionJ, goodQuestionJ, goodQuestionJ])]

/-- Oracle for the C1 amended witness: the first call returns exactly 20
well-formed questions. -/
def oracleC1w : GenOracle := fun _ =>
  .content [("quiz_questions", .arr (List.replicate 20 goodQuestionJ))]

def emptyCoordinator : CoordinatorState := { agents := [], taskHistory := [] }

/-- A task with no required capabilities. -/
def plainTask : TaskRequest :=
  { id := "task-1", type := "generate_quiz", requiredCapabilities := [],
    priority := 0, timeout := 30000 }

/-- A task requiring the `generate_quiz` capability. -/
def quizTask : TaskRequest :=
  { id := "task-2", type := "generate_quiz", requiredCapabilities := ["generate_quiz"],
    priority := 1, timeout := 30000 }

/-- An otherwise-idle active worker with the given average task duration. -/
def idleWorker (avg : ℚ) : AgentData :=
  { info := { id := "w1", name := "worker", description := "",
              capabilities := [{ name := "generate_quiz", description := "" }] },
    hasAgent := true, status := .active, currentTasks := [],
    performance := { tasksCompleted := 1, averageTime := avg, successRate := 1 } }

def infoA : AgentInfo :=
  { id := "agent-a", name := "A", description := "",
    capabilities := [{ name := "generate_quiz", description := "" }] }

def infoB : AgentInfo :=
  { id := "agent-b", name := "B", description := "",
    capabilities := [{ name := "generate_quiz", description := "" }] }

/-- A dispatch that rejects (e.g. a timeout) after 100 ms. -/
def failingDispatch : DispatchOutcome := { outcome := .error "Request timeout", duration := 100 }

/-- A dispatch that resolves after 100 ms. -/
def okDispatch : DispatchOutcome := { outcome := .ok "payload", duration := 100 }

/-- A pre-wrapped candidate (`{ data: ... }`) whose `quiz_questions` array
has 19 items, used by the C10 witness. -/
def fieldsC10 : List (String × JValue) :=
  [("data", .obj [("minItems", .num 20), ("maxItems", .num 20),
                  ("quiz_questions", .arr (List.replicate 19 goodQuestionJ))])]

/-! ## Helper lemmas -/

theorem string_data_append (s t : String) : (s ++ t).data = s.data ++ t.data := by
  cases s; cases t; rfl

theorem need_tag_ne_ready (s : String) :
    ("need_" ++ s) ≠ "ready_for_validation" := by
  intro h
  have h2 := congrArg String.data h
  rw [string_data_append] at h2
  have e1 : "need_".data = 'n' :: "eed_".data := rfl
  have e2 : "ready_for_validation".data = 'r' :: "eady_for_validation".data := rfl
  rw [e1, e2] at h2
  simp at h2

theorem strStartsWith_need (s : String) :
    strStartsWith ("need_" ++ s) "need_" = true := by
  unfold strStartsWith
  rw [string_data_append]
  have e1 : "need_".data = ['n', 'e', 'e', 'd', '_'] := rfl
  rw [e1]
  simp

theorem isReady_need_tag (a b : String) :
    (FinalResult.tag ("need_" ++ a ++ b)).isReady = false := by
  rw [String.append_assoc]
  show (("need_" ++ (a ++ b)) == "ready_for_validation") = false
  exact beq_eq_false_iff_ne.mpr (need_tag_ne_ready (a ++ b))

theorem isNeedMore_need_tag (a b : String) :
    (FinalResult.tag ("need_" ++ a ++ b)).isNeedMore = true := by
  rw [String.append_assoc]
  exact strStartsWith_need (a ++ b)

theorem val_ne_structuring (a b : String) :
    ("Validation failed: " ++ a) ≠ ("Structuring failed: " ++ b) := by
  intro h
  have h2 := congrArg String.data h
  rw [string_data_append, string_data_append] at h2
  have e1 : "Validation failed: ".data = 'V' :: "alidation failed: ".data := rfl
  have e2 : "Structuring failed: ".data = 'S' :: "tructuring failed: ".data := rfl
  rw [e1, e2] at h2
  simp at h2

theorem histUpTo_length (qss : Nat → List JValue) (N : Nat) :
    ∀ j, (histUpTo qss N j).length = j := by
  intro j
  induction j with
  | zero => rfl
  | succ j ih => simp [histUpTo, ih]

/-- `checkQuestionCount` in the exact-count case. -/
theorem checkQuestionCount_exact (s : QuizState)
    (h : s.collectedQuestions.length = s.targetCount) :
    checkQuestionCount s = { s with
      finalResult := .tag "ready_for_validation",
      currentStatus := "perfect_count_" ++ toString s.collectedQuestions.length ++
        "_questions" } := by
  unfold checkQuestionCount
  rw [if_pos h]

/-- `checkQuestionCount` in the excess case: silent trim, then validation. -/
theorem checkQuestionCount_trim (s : QuizState)
    (h : s.collectedQuestions.length > s.targetCount) :
    checkQuestionCount s = { s with
      collectedQuestions := s.collectedQuestions.take s.targetCount,
      finalResult := .tag "ready_for_validation",
      currentStatus := "trimmed_to_" ++ toString s.targetCount ++ "_questions" } := by
  unfold checkQuestionCount
  rw [if_neg (by omega), if_pos h]

/-- `checkQuestionCount` in the shortfall case with attempts left. -/
theorem checkQuestionCount_need (s : QuizState)
    (hlt : s.collectedQuestions.length < s.targetCount)
    (hatt : s.attemptCount < s.maxAttempts) :
    checkQuestionCount s = { s with
      finalResult := .tag ("need_" ++
        toString (s.targetCount - s.collectedQuestions.length) ++ "_more"),
      currentStatus := "need_" ++
        toString (s.targetCount - s.collectedQuestions.length) ++
        "_more_questions_attempt_" ++ toString s.attemptCount } := by
  unfold checkQuestionCount
  rw [if_neg (by omega), if_neg (by omega), if_neg (by omega)]

/-- `checkQuestionCount` in the shortfall case with attempts exhausted. -/
theorem checkQuestionCount_maxed (s : QuizState)
    (hlt : s.collectedQuestions.length < s.targetCount)
    (hatt : s.maxAttempts ≤ s.attemptCount) :
    checkQuestionCount s = { s with
      error := some ("Maximum " ++ toString s.maxAttempts ++
        " attempts reached. Only generated " ++
        toString s.collectedQuestions.length ++ "/" ++
        toString s.targetCount ++ " questions."),
      currentStatus := "max_attempts_exceeded",
      lastAttemptDetails := .countReport s.collectedQuestions.length s.targetCount
        s.attemptCount s.attemptHistory } := by
  unfold checkQuestionCount
  rw [if_neg (by omega), if_neg (by omega), if_pos (by omega)]

theorem parse_list_all_ok (qs : List JValue)
    (hwf : ∀ v ∈ qs, exceptIsOk (parseQuestion v) = true) :
    ((qs.map parseQuestion).map exceptIssues).flatten = [] ∧
    ((qs.map parseQuestion).filterMap exceptToOption).length = qs.length := by
  induction qs with
  | nil => exact ⟨rfl, rfl⟩
  | cons x xs ih =>
    have hx := hwf x (by simp)
    obtain ⟨h1, h2⟩ := ih (fun v hv => hwf v (by simp [hv]))
    cases hpx : parseQuestion x with
    | ok q =>
      constructor
      · simp only [List.map_cons, hpx, List.flatten_cons, exceptIssues, List.nil_append]
        exact h1
      · simp only [List.map_cons, hpx, List.filterMap_cons, exceptToOption,
          List.length_cons]
        omega
    | error e => rw [hpx] at hx; exact absurd hx (by simp [exceptIsOk])

theorem parseQuizQuestions_ok (qs : List JValue) (hlen : qs.length = 20)
    (hwf : ∀ v ∈ qs, exceptIsOk (parseQuestion v) = true) :
    ∃ items, parseQuizQuestions (.arr qs) = .ok items ∧ items.length = 20 := by
  obtain ⟨h1, h2⟩ := parse_list_all_ok qs hwf
  refine ⟨(qs.map parseQuestion).filterMap exceptToOption, ?_, by rw [h2, hlen]⟩
  simp only [parseQuizQuestions]
  rw [if_pos hlen, h1]
  rfl

theorem quizSchemaParse_wrap_ok (qs : List JValue) (hlen : qs.length = 20)
    (hwf : ∀ v ∈ qs, exceptIsOk (parseQuestion v) = true) :
    ∃ items, quizSchemaParse (wrapQuestions qs) = .ok ⟨⟨20, 20, items⟩⟩ ∧
      items.length = 20 := by
  obtain ⟨items, hok, hlen2⟩ := parseQuizQuestions_ok qs hlen hwf
  refine ⟨items, ?_, hlen2⟩
  simp [quizSchemaParse, wrapQuestions, jlookup, parseCount20, hok]

theorem structuredJSONData_quizobj_ok (qs : List JValue) (hlen : qs.length = 20)
    (hwf : ∀ v ∈ qs, exceptIsOk (parseQuestion v) = true) :
    ∃ items, structuredJSONData (.obj [("quiz_questions", .arr qs)]) =
      .ok ⟨⟨20, 20, items⟩⟩ ∧ items.length = 20 := by
  obtain ⟨items, hok, hlen2⟩ := quizSchemaParse_wrap_ok qs hlen hwf
  refine ⟨items, ?_, hlen2⟩
  unfold structuredJSONData structuredJSONDataTraced normalizeCandidate
  simp [jlookup, hlen, hok]

/-! ## Claim C8 -/

/-- C8: a bare array whose length is not 20 (the fixed target count the
source enforces) fails immediately in the normalization step with the
count-mismatch error naming the actual count and the expected count 20
(the message decomposes around both `toString qs.length` and `"20"`), and
`QuizSchema.parse` is never invoked (the trace flag is `false`). -/
theorem c8_bare_array_fail_fast (qs : List JValue) (h : qs.length ≠ 20) :
    structuredJSONDataTraced (.arr qs) =
      (.error ("Structuring failed: " ++ bareCountMsg qs.length), false) ∧
    (∃ a b : String, bareCountMsg qs.length = a ++ (toString qs.length ++ b)) ∧
    (∃ c e : String, bareCountMsg qs.length = c ++ ("20" ++ e)) := by
  refine ⟨?_, ?_, ?_⟩
  · simp only [structuredJSONDataTraced, normalizeCandidate]
    rw [if_pos h]
  · refine ⟨"Quiz has ",
      " questions but needs exactly 20. Please call generate_quiz again with instruction to create exactly 20 questions.", ?_⟩
    unfold bareCountMsg
    rw [String.append_assoc]
  · refine ⟨("Quiz has " ++ toString qs.length) ++ " questions but needs exactly ",
      ". Please call generate_quiz again with instruction to create exactly 20 questions.", ?_⟩
    unfold bareCountMsg
    rw [String.append_assoc ("Quiz has " ++ toString qs.length)
      " questions but needs exactly "]
    congr 1

/-- C8 witness: a bare array of 19 items. -/
theorem c8_witness :
    structuredJSONDataTraced (.arr (List.replicate 19 (JValue.obj []))) =
      (.error ("Structuring failed: " ++
        bareCountMsg (List.replicate 19 (JValue.obj [])).length), false) :=
  (c8_bare_array_fail_fast (List.replicate 19 (JValue.obj [])) (by decide)).1

/-! ## Claim C4 -/

/-- C4 counterexample: the claim says schema validation accepts a
collection only if every item's designated-correct marker corresponds to
one of its 5 option labels (and that the 5 options are distinct).  This
collection has 20 items whose `correct_answer` is `"Z"` while every one of
their five (identical) options is labelled `A` — yet `QuizSchema.parse`
accepts it, because the schema checks `correct_answer` only for being a
string. -/
theorem c4_counterexample :
    exceptIsOk (quizSchemaParse (wrapQuestions
      (List.replicate 20 (mkQuestionJ "q" "Z")))) = true := by rfl

/-- C4 (amended): schema validation accepts a wrapped collection of 20
items whose every item has string `question` / `correct_answer` fields and
exactly 5 options each with a string `answer` — for ANY marker string,
related to the option labels or not, and with no distinctness requirement;
an item with a wrong option count is rejected with the per-item
array-length issue. -/
theorem c4_amended_schema_acceptance :
    (∀ marker : String,
      exceptIsOk (quizSchemaParse (wrapQuestions
        (List.replicate 20 (mkQuestionJ "q" marker)))) = true) ∧
    quizSchemaParse (wrapQuestions
        (fourOptionQuestionJ :: List.replicate 19 goodQuestionJ)) =
      .error ["Array must contain exactly 5 element(s)"] :=
  ⟨fun _ => rfl, rfl⟩

/-! ## Claim C3 -/

/-- C3 counterexample: the claim requires that, all else equal, a worker
with lower average task duration never receives a strictly lower score —
in particular when one worker's `averageTime` is 0 and the other's is
positive.  But the `averageTime > 0` guard denies the zero-average worker
any speed bonus: an otherwise-identical worker with average 1000 ms scores
199 while the 0 ms worker scores 150. -/
theorem c3_counterexample :
    calculateAgentScore (idleWorker 0) plainTask <
      calculateAgentScore (idleWorker 1000) plainTask := by
  simp only [calculateAgentScore, idleWorker, plainTask]
  norm_num

/-- C3 (amended): the agent-selection score is monotone in `successRate`
and in the current task count unconditionally, and monotone in
`averageTime` among workers whose `averageTime` is positive; the
monotonicity fails only at `averageTime = 0` (see the counterexample),
where the speed bonus is skipped entirely. -/
theorem c3_amended_monotonicity (d : AgentData) (req : TaskRequest) :
    (∀ r1 r2 : ℚ, r1 ≤ r2 →
      calculateAgentScore { d with performance := { d.performance with successRate := r1 } } req ≤
      calculateAgentScore { d with performance := { d.performance with successRate := r2 } } req) ∧
    (∀ t1 t2 : List String, t1.length ≤ t2.length →
      calculateAgentScore { d with currentTasks := t2 } req ≤
      calculateAgentScore { d with currentTasks := t1 } req) ∧
    (∀ q1 q2 : ℚ, 0 < q1 → q1 ≤ q2 →
      calculateAgentScore { d with performance := { d.performance with averageTime := q2 } } req ≤
      calculateAgentScore { d with performance := { d.performance with averageTime := q1 } } req) := by
  refine ⟨?_, ?_, ?_⟩
  · intro r1 r2 h
    have h50 : r1 * 50 ≤ r2 * 50 := mul_le_mul_of_nonneg_right h (by norm_num)
    simp only [calculateAgentScore]
    split_ifs <;> linarith
  · intro t1 t2 h
    have hc : (t1.length : ℚ) ≤ (t2.length : ℚ) := by exact_mod_cast h
    have hc10 : (t1.length : ℚ) * 10 ≤ (t2.length : ℚ) * 10 :=
      mul_le_mul_of_nonneg_right hc (by norm_num)
    simp only [calculateAgentScore]
    split_ifs <;> linarith
  · intro q1 q2 h1 h12
    have hdiv : q1 / 1000 ≤ q2 / 1000 := by gcongr
    have hmax : max 0 (50 - q2 / 1000) ≤ max 0 (50 - q1 / 1000) :=
      max_le_max le_rfl (by linarith)
    simp only [calculateAgentScore]
    split_ifs <;> linarith

/-- C3 amended witness at a concrete worker and task. -/
theorem c3_amended_witness :
    (0 : ℚ) ≤ 1 ∧
    calculateAgentScore { idleWorker 500 with
        performance := { (idleWorker 500).performance with successRate := 0 } } plainTask ≤
    calculateAgentScore { idleWorker 500 with
        performance := { (idleWorker 500).performance with successRate := 1 } } plainTask :=
  ⟨by norm_num, (c3_amended_monotonicity (idleWorker 500) plainTask).1 0 1 (by norm_num)⟩

/-! ## Claim C2 -/

/-- C2 counterexample: the claim says the caller of `submitTask` always
receives a TaskResult and never an exception, including when no eligible
worker exists.  On an empty registry `submitTask` throws
`"No suitable agent available for this task"` (modelled as the
`Except.error` outcome) instead of returning a TaskResult. -/
theorem c2_counterexample :
    submitTask okDispatch emptyCoordinator plainTask =
      .error "No suitable agent available for this task" := rfl

/-- C2 (amended): once a task reaches dispatch (`executeTask`), the caller
always receives a TaskResult whose `success` flag distinguishes the
outcome — a dispatch failure or timeout is normalized, never re-thrown.
But the submit entry points themselves throw before dispatch: `submitTask`
when no eligible worker exists, and `submitTaskToAgent` when the target is
unknown or inactive. -/
theorem c2_amended_result_normalization (d : DispatchOutcome) (st : CoordinatorState)
    (req : TaskRequest) (aid : String) (ad : AgentData)
    (hfound : lookupAgent st.agents aid = some ad) :
    (∃ st2 r, executeTask d st req aid = .ok (st2, r) ∧ r.id = req.id ∧
      r.agentId = aid ∧ r.success = (ad.hasAgent && exceptIsOk d.outcome)) ∧
    (selectBestAgent st req = none →
      submitTask d st req = .error "No suitable agent available for this task") ∧
    (∀ aid2, lookupAgent st.agents aid2 = none →
      submitTaskToAgent d st req aid2 = .error ("Agent not found: " ++ aid2)) ∧
    (ad.status = .inactive →
      submitTaskToAgent d st req aid = .error ("Agent is inactive: " ++ aid)) ∧
    (ad.status ≠ .inactive →
      submitTaskToAgent d st req aid = executeTask d st req aid) := by
  refine ⟨?_, ?_, ?_, ?_, ?_⟩
  · simp only [executeTask, hfound]
    cases hag : ad.hasAgent with
    | true =>
      cases hout : d.outcome with
      | ok p => exact ⟨_, _, rfl, rfl, rfl, by simp [exceptIsOk]⟩
      | error e => exact ⟨_, _, rfl, rfl, rfl, by simp [exceptIsOk]⟩
    | false =>
      cases hcap : ad.info.capabilities.any (fun c => c.name == req.type) with
      | true => exact ⟨_, _, rfl, rfl, rfl, by simp [exceptIsOk]⟩
      | false => exact ⟨_, _, rfl, rfl, rfl, by simp [exceptIsOk]⟩
  · intro hsel
    simp only [submitTask, hsel]
  · intro aid2 hnone
    simp only [submitTaskToAgent, hnone]
  · intro hina
    simp only [submitTaskToAgent, hfound, hina, if_pos]
  · intro hact
    simp only [submitTaskToAgent, hfound]
    rw [if_neg hact]

/-- C2 amended witness: a registered worker whose dispatch times out. -/
theorem c2_amended_witness :
    ∃ st2 r, executeTask failingDispatch (registerAgent emptyCoordinator infoA)
        quizTask "agent-a" = .ok (st2, r) ∧ r.id = quizTask.id ∧
      r.agentId = "agent-a" ∧
      r.success = (true && exceptIsOk failingDispatch.outcome) :=
  (c2_amended_result_normalization failingDispatch (registerAgent emptyCoordinator infoA)
    quizTask "agent-a" ⟨infoA, true, .active, [], ⟨0, 0, 1⟩⟩ rfl).1

/-! ## Claim C9 -/

theorem sortTwo (x y : ScoredAgent) (h : y.score ≤ x.score) :
    sortByScoreDesc [x, y] = [x, y] := by
  simp only [sortByScoreDesc, insertByScoreDesc]
  rw [if_pos h]

/-- C9: worker auto-selection is deterministic under ties — with two
registered workers carrying identical capability sets (and the identical
fresh performance, status and load that registration installs), both
eligible for the task, `selectBestAgent` picks the first-registered one,
and `submitTask` dispatches to it. -/
theorem c9_tie_break_first_registered (info1 info2 : AgentInfo) (req : TaskRequest)
    (d : DispatchOutcome)
    (hne : info1.id ≠ info2.id)
    (hcaps : info1.capabilities = info2.capabilities)
    (helig : req.requiredCapabilities.all (fun capability =>
      info1.capabilities.any (fun c => c.name == capability)) = true) :
    selectBestAgent (registerAgent (registerAgent emptyCoordinator info1) info2) req
      = some info1.id ∧
    (∃ st2 r, submitTask d (registerAgent (registerAgent emptyCoordinator info1) info2) req
      = .ok (st2, r) ∧ r.agentId = info1.id) := by
  have hagents : (registerAgent (registerAgent emptyCoordinator info1) info2).agents =
      [(info1.id, freshEntry info1), (info2.id, freshEntry info2)] := by
    simp [registerAgent, emptyCoordinator, setAgent, hne]
  have helig1 : eligibleFor req (freshEntry info1) = true := by
    simp only [eligibleFor, freshEntry]
    simpa using helig
  have helig2 : eligibleFor req (freshEntry info2) = true := by
    simp only [eligibleFor, freshEntry]
    rw [← hcaps]
    simpa using helig
  have hscore : calculateAgentScore (freshEntry info1) req =
      calculateAgentScore (freshEntry info2) req := rfl
  have hfil : List.filter (fun p => eligibleFor req p.2)
      [(info1.id, freshEntry info1), (info2.id, freshEntry info2)] =
      [(info1.id, freshEntry info1), (info2.id, freshEntry info2)] := by
    simp [helig1, helig2]
  have hsel : selectBestAgent (registerAgent (registerAgent emptyCoordinator info1) info2) req
      = some info1.id := by
    unfold selectBestAgent
    rw [hagents, hfil]
    simp only [List.map_cons, List.map_nil]
    rw [sortTwo _ _ (le_of_eq hscore.symm)]
  refine ⟨hsel, ?_⟩
  unfold submitTask
  rw [hsel]
  have hlook : lookupAgent
      (registerAgent (registerAgent emptyCoordinator info1) info2).agents info1.id
      = some (freshEntry info1) := by
    rw [hagents]; simp [lookupAgent]
  simp only [executeTask, hlook]
  cases hout : d.outcome with
  | ok p => exact ⟨_, _, rfl, rfl⟩
  | error e => exact ⟨_, _, rfl, rfl⟩

/-- C9 witness: two concrete workers with equal capability sets registered
in order. -/
theorem c9_witness :
    selectBestAgent (registerAgent (registerAgent emptyCoordinator infoA) infoB) quizTask
      = some infoA.id ∧
    (∃ st2 r, submitTask okDispatch
        (registerAgent (registerAgent emptyCoordinator infoA) infoB) quizTask
      = .ok (st2, r) ∧ r.agentId = infoA.id) :=
  c9_tie_break_first_registered infoA infoB quizTask okDispatch
    (by decide) rfl (by decide)

/-! ## Claim C10 -/

/-- C10: an input that parses to an already-wrapped canonical object — a
`data` field holding an object, and no top-level `quiz_questions` array
(the canonical wrapper never has one) — skips the fail-fast count check
entirely: normalization passes the object through unchanged, the result is
exactly whatever `QuizSchema.parse` decides, and no zod-path message ever
coincides with the fail-fast count-mismatch message bare arrays and
`quiz_questions` objects receive. -/
theorem c10_prewrapped_skips_count_check (fields : List (String × JValue)) (dv : JValue)
    (hdata : jlookup fields "data" = some dv)
    (hobj : isTruthyObject dv = true)
    (hnoqq : ∀ l, jlookup fields "quiz_questions" ≠ some (.arr l)) :
    normalizeCandidate (.obj fields) = .ok (.obj fields) ∧
    structuredJSONDataTraced (.obj fields) =
      ((match quizSchemaParse (.obj fields) with
        | Except.ok v => Except.ok v
        | Except.error issues => Except.error (zodCatchMessage issues)), true) ∧
    (∀ issues n, zodCatchMessage issues ≠ "Structuring failed: " ++ bareCountMsg n) := by
  have h1 : normalizeCandidate (.obj fields) = .ok (.obj fields) := by
    simp only [normalizeCandidate]
    cases hq : jlookup fields "quiz_questions" with
    | none => rw [hdata]; simp [hobj]
    | some v =>
      cases v with
      | arr l => exact absurd hq (hnoqq l)
      | str s => rw [hdata]; simp [hobj]
      | num n => rw [hdata]; simp [hobj]
      | jbool b => rw [hdata]; simp [hobj]
      | jnull => rw [hdata]; simp [hobj]
      | obj o => rw [hdata]; simp [hobj]
  refine ⟨h1, ?_, ?_⟩
  · simp only [structuredJSONDataTraced, h1]
    cases quizSchemaParse (JValue.obj fields) <;> rfl
  · intro issues n
    unfold zodCatchMessage
    split
    · exact val_ne_structuring _ _
    · exact val_ne_structuring _ _

/-- C10 witness: a pre-wrapped object whose `quiz_questions` array has 19
items is rejected by the schema validator only (and with a message
distinct from the fail-fast count-mismatch one). -/
theorem c10_witness :
    normalizeCandidate (.obj fieldsC10) = .ok (.obj fieldsC10) ∧
    structuredJSONDataTraced (.obj fieldsC10) =
      ((match quizSchemaParse (.obj fieldsC10) with
        | Except.ok v => Except.ok v
        | Except.error issues => Except.error (zodCatchMessage issues)), true) ∧
    (∀ issues n, zodCatchMessage issues ≠ "Structuring failed: " ++ bareCountMsg n) :=
  c10_prewrapped_skips_count_check fieldsC10 _ rfl rfl
    (fun l h => by simp [fieldsC10, jlookup] at h)

/-! ## Claim C1 -/

/-- C1 counterexample: the claim quantifies over every targetCount N > 0
and asserts the validator enforces item count = targetCount rather than a
fixed constant.  With targetCount 1 and maxAttempts 1, a generation call
that returns exactly the requested single well-formed item satisfies the
claim's premise, yet the run does NOT terminate Validated: the validator
enforces the constant 20, so the run fails (after the 1 generation call
the claim counts). -/
theorem c1_counterexample :
    (runQuizAgentGraph oracleC1 "topic" 1 1).1.isValidated = false ∧
    (runQuizAgentGraph oracleC1 "topic" 1 1).2 = 1 := ⟨rfl, rfl⟩

/-- C1 (amended): for targetCount = 20 — the fixed count the schema
actually enforces — and any maxAttempts M ≥ 1, if the first generation
call returns exactly the requested 20 well-formed items, the run
terminates Validated after exactly 1 generation call with a validated
collection of exactly 20 items.  (For any other targetCount the
hard-coded 20 in `structuredJSONData` / `QuizSchema` rejects the
collection: see the counterexample.) -/
theorem c1_amended_validated_at_twenty (oracle : GenOracle) (prompt : String)
    (M : Nat) (qs : List JValue)
    (hM : 1 ≤ M)
    (h0 : oracle 0 = .content [("quiz_questions", .arr qs)])
    (hlen : qs.length = 20)
    (hwf : ∀ v ∈ qs, exceptIsOk (parseQuestion v) = true) :
    ∃ v, runQuizAgentGraph oracle prompt 20 M = (.validated v, 1) ∧
      v.data.quiz_questions.length = 20 := by
  obtain ⟨items, hsd, hil⟩ := structuredJSONData_quizobj_ok qs hlen hwf
  refine ⟨⟨⟨20, 20, items⟩⟩, ?_, hil⟩
  unfold runQuizAgentGraph
  rw [h0]
  simp [generateInitialQuiz, initialQuizState, questionsOf, jlookup,
    runFromCheck, checkQuestionCount, validateAndStructure, hlen, hsd,
    FinalResult.isReady]

/-- C1 amended witness: 20 good questions on the first call, one attempt
allowed. -/
theorem c1_amended_witness :
    ∃ v, runQuizAgentGraph oracleC1w "topic" 20 1 = (.validated v, 1) ∧
      v.data.quiz_questions.length = 20 :=
  c1_amended_validated_at_twenty oracleC1w "topic" 1 (List.replicate 20 goodQuestionJ)
    (le_refl 1) rfl (by decide)
    (fun v hv => by rw [List.eq_of_mem_replicate hv]; rfl)

/-! ## Claim C6 -/

/-- C6: when the first generation call yields targetCount + k items
(k > 0), `check_count` silently truncates the accumulation to the first
targetCount items in insertion order (`List.take`), sets no error, routes
to validation, and the whole run performs exactly 1 generation call —
no extra attempt is consumed. -/
theorem c6_trim_and_validate (oracle : GenOracle) (prompt : String) (N k M : Nat)
    (qs : List JValue)
    (hN : 0 < N) (hk : 0 < k) (hlen : qs.length = N + k)
    (h0 : oracle 0 = .content [("quiz_questions", .arr qs)]) :
    (checkQuestionCount (generateInitialQuiz (oracle 0)
        (initialQuizState prompt N M))).collectedQuestions = qs.take N ∧
    (checkQuestionCount (generateInitialQuiz (oracle 0)
        (initialQuizState prompt N M))).error = none ∧
    (checkQuestionCount (generateInitialQuiz (oracle 0)
        (initialQuizState prompt N M))).finalResult = .tag "ready_for_validation" ∧
    (checkQuestionCount (generateInitialQuiz (oracle 0)
        (initialQuizState prompt N M))).attemptCount = 1 ∧
    (runQuizAgentGraph oracle prompt N M).2 = 1 := by
  have hne : ¬ qs.length = N := by omega
  have hgt : N < qs.length := by omega
  refine ⟨?_, ?_, ?_, ?_, ?_⟩
  · rw [h0]
    simp [generateInitialQuiz, initialQuizState, questionsOf, jlookup,
      checkQuestionCount, hne, hgt]
  · rw [h0]
    simp [generateInitialQuiz, initialQuizState, questionsOf, jlookup,
      checkQuestionCount, hne, hgt]
  · rw [h0]
    simp [generateInitialQuiz, initialQuizState, questionsOf, jlookup,
      checkQuestionCount, hne, hgt]
  · rw [h0]
    simp [generateInitialQuiz, initialQuizState, questionsOf, jlookup,
      checkQuestionCount, hne, hgt]
  · unfold runQuizAgentGraph
    rw [h0]
    simp only [generateInitialQuiz, initialQuizState, questionsOf, jlookup,
      runFromCheck]
    simp [checkQuestionCount, hne, hgt, FinalResult.isReady]
    split
    · rfl
    · split <;> rfl

/-- C6 witness: target 2, first call yields 3 items. -/
theorem c6_witness :
    (checkQuestionCount (generateInitialQuiz (oracleC6 0)
        (initialQuizState "topic" 2 1))).collectedQuestions =
      [goodQuestionJ, goodQuestionJ, goodQuestionJ].take 2 ∧
    (checkQuestionCount (generateInitialQuiz (oracleC6 0)
        (initialQuizState "topic" 2 1))).error = none ∧
    (checkQuestionCount (generateInitialQuiz (oracleC6 0)
        (initialQuizState "topic" 2 1))).finalResult = .tag "ready_for_validation" ∧
    (checkQuestionCount (generateInitialQuiz (oracleC6 0)
        (initialQuizState "topic" 2 1))).attemptCount = 1 ∧
    (runQuizAgentGraph oracleC6 "topic" 2 1).2 = 1 :=
  c6_trim_and_validate oracleC6 "topic" 2 1 1
    [goodQuestionJ, goodQuestionJ, goodQuestionJ]
    (by decide) (by decide) (by decide) rfl

/-! ## Claim C5 -/

/-- C5 counterexample: target 3, maxAttempts 4; the first call returns 2
items, the top-up call throws.  The claim says the machine increments the
attempt count, keeps the accumulation, returns to counting and retries,
with no error reaching the caller until 4 generation calls are used.  In
fact the conditional edge after `generate_additional` routes an error
state straight to `handle_error`, which throws: the run fails after only 2
generation calls, with attempts 2 of 4 (the accumulation is indeed kept:
achieved count 2). -/
theorem c5_counterexample :
    (runQuizAgentGraph oracleC5 "topic" 3 4).2 = 2 ∧
    ((runQuizAgentGraph oracleC5 "topic" 3 4).1.reportOf.map ErrorReport.attempts)
      = some 2 ∧
    ((runQuizAgentGraph oracleC5 "topic" 3 4).1.reportOf.map ErrorReport.maxAttempts)
      = some 4 ∧
    ((runQuizAgentGraph oracleC5 "topic" 3 4).1.reportOf.map ErrorReport.achievedCount)
      = some 2 ∧
    ((runQuizAgentGraph oracleC5 "topic" 3 4).1.reportOf.map ErrorReport.error)
      = some (some "Additional generation failed: boom") :=
  ⟨rfl, rfl, rfl, rfl, rfl⟩

/-- C5 (amended): when a top-up generation call throws and attempts are
not yet exhausted, the machine does increment the attempt count and does
keep the previously accumulated items unchanged — but it transitions
directly to the error handler instead of returning to the counting step:
the failure report (with achieved count equal to the preserved
accumulation) propagates to the caller immediately, after only 2 of the M
allowed generation calls.  (A JSON-parse failure of top-up output would
likewise route to the error handler, without even incrementing the attempt
count.) -/
theorem c5_amended_topup_failure_propagates (oracle : GenOracle) (prompt msg : String)
    (N M : Nat) (qs0 : List JValue)
    (h0 : oracle 0 = .content [("quiz_questions", .arr qs0)])
    (h1 : oracle 1 = .thrown msg)
    (hlt : qs0.length < N) (hM : 1 < M) :
    ∃ r, runQuizAgentGraph oracle prompt N M = (.failed r, 2) ∧
      r.achievedCount = qs0.length ∧ r.attempts = 2 ∧ r.maxAttempts = M ∧
      r.attemptHistory.length = 2 ∧
      r.error = some ("Additional generation failed: " ++ msg) := by
  have hne : ¬ qs0.length = N := by omega
  have hngt : ¬ N < qs0.length := by omega
  have hatt : ¬ M ≤ 1 := by omega
  unfold runQuizAgentGraph
  rw [h0]
  simp [generateInitialQuiz, initialQuizState, questionsOf, jlookup, runFromCheck,
    checkQuestionCount, hne, hngt, hatt, isReady_need_tag, isNeedMore_need_tag,
    generateAdditionalQuiz, h1, handleError]

/-- C5 amended witness. -/
theorem c5_amended_witness :
    ∃ r, runQuizAgentGraph oracleC5 "topic" 3 4 = (.failed r, 2) ∧
      r.achievedCount = [goodQuestionJ, goodQuestionJ].length ∧ r.attempts = 2 ∧
      r.maxAttempts = 4 ∧ r.attemptHistory.length = 2 ∧
      r.error = some ("Additional generation failed: " ++ "boom") :=
  c5_amended_topup_failure_propagates oracleC5 "topic" "boom" 3 4
    [goodQuestionJ, goodQuestionJ] rfl rfl (by decide) (by decide)

/-! ## Claim C7 -/

/-- Loop invariant for C7: entering `check_count` after `j` successful
generation calls (1 ≤ j ≤ M) whose accumulation is still below target,
with enough fuel for the attempts still allowed, the run ends Failed with
the exhausted-attempts report after exactly `M` generation calls. -/
theorem c7_loop (oracle : GenOracle) (qss : Nat → List JValue) (N M : Nat)
    (hor : ∀ i, i < M → oracle i = .content [("quiz_questions", .arr (qss i))])
    (hbelow : ∀ j, 1 ≤ j → j ≤ M → (accumUpTo qss j).length < N) :
    ∀ fuel j (prompt cs : String) (fr : FinalResult) (ld : LastDetails),
      1 ≤ j → j ≤ M → M + 1 ≤ fuel + j →
      runFromCheck oracle fuel j
        { userPrompt := prompt, collectedQuestions := accumUpTo qss j,
          targetCount := N, attemptCount := j, maxAttempts := M,
          finalResult := fr, error := none,
          attemptHistory := histUpTo qss N j, currentStatus := cs,
          lastAttemptDetails := ld } = (.failed (maxedReport qss N M), M) := by
  intro fuel
  induction fuel with
  | zero => intro j prompt cs fr ld h1 hjM hfuel; omega
  | succ fuel ih =>
    intro j prompt cs fr ld h1 hjM hfuel
    by_cases hj : j = M
    · subst hj
      have hne : ¬ (accumUpTo qss j).length = N := by
        have := hbelow j h1 hjM; omega
      have hngt : ¬ N < (accumUpTo qss j).length := by
        have := hbelow j h1 hjM; omega
      simp only [runFromCheck]
      simp [checkQuestionCount, hne, hngt, handleError, maxedReport]
    · obtain ⟨jj, rfl⟩ : ∃ jj, j = jj + 1 := ⟨j - 1, by omega⟩
      have hne : ¬ (accumUpTo qss (jj + 1)).length = N := by
        have := hbelow (jj + 1) h1 hjM; omega
      have hngt : ¬ N < (accumUpTo qss (jj + 1)).length := by
        have := hbelow (jj + 1) h1 hjM; omega
      have hnle : ¬ M ≤ jj + 1 := by omega
      have hospec := hor (jj + 1) (by omega)
      simp only [runFromCheck]
      simp only [checkQuestionCount, hne, hngt, hnle, if_false, ite_false]
      simp [hne, hngt, hnle, isReady_need_tag, isNeedMore_need_tag,
        generateAdditionalQuiz, hospec, questionsOf, jlookup]
      rw [show (accumUpTo qss (jj + 1)).length + (qss (jj + 1)).length
          = (accumUpTo qss (jj + 2)).length by simp [accumUpTo]; omega]
      exact ih (jj + 2) _ _ _ _ (by omega) (by omega) (by omega)

/-- C7: when every generation call succeeds but the cumulative count stays
below targetCount through all M attempts, the run terminates Failed after
exactly M generation calls, with an attempt history of length exactly M,
an achieved count strictly below targetCount, and a report carrying the
full history, the target and achieved counts, and the
attempts-exhausted hint. -/
theorem c7_failed_after_max_attempts (oracle : GenOracle) (qss : Nat → List JValue)
    (prompt : String) (N M : Nat)
    (hM : 1 ≤ M)
    (hor : ∀ i, i < M → oracle i = .content [("quiz_questions", .arr (qss i))])
    (hbelow : ∀ j, 1 ≤ j → j ≤ M → (accumUpTo qss j).length < N) :
    runQuizAgentGraph oracle prompt N M = (.failed (maxedReport qss N M), M) ∧
    (maxedReport qss N M).attemptHistory.length = M ∧
    (maxedReport qss N M).achievedCount < N ∧
    (maxedReport qss N M).targetCount = N ∧
    (maxedReport qss N M).attempts = M ∧
    (maxedReport qss N M).maxAttempts = M ∧
    (maxedReport qss N M).suggestion =
      "Try with a different topic or simpler requirements" := by
  refine ⟨?_, ?_, ?_, rfl, rfl, rfl, rfl⟩
  · unfold runQuizAgentGraph
    rw [hor 0 (by omega)]
    simp only [generateInitialQuiz, initialQuizState, questionsOf, jlookup]
    exact c7_loop oracle qss N M hor hbelow (M + 1) 1 prompt _ _ _
      (le_refl 1) hM (by omega)
  · simp [maxedReport, histUpTo_length]
  · simpa [maxedReport] using hbelow M hM (le_refl M)

/-- C7 witness: target 3, maxAttempts 2, one question per call. -/
theorem c7_witness :
    runQuizAgentGraph oracleC7 "topic" 3 2 = (.failed (maxedReport qssC7 3 2), 2) ∧
    (maxedReport qssC7 3 2).attemptHistory.length = 2 ∧
    (maxedReport qssC7 3 2).achievedCount < 3 ∧
    (maxedReport qssC7 3 2).targetCount = 3 ∧
    (maxedReport qssC7 3 2).attempts = 2 ∧
    (maxedReport qssC7 3 2).maxAttempts = 2 ∧
    (maxedReport qssC7 3 2).suggestion =
      "Try with a different topic or simpler requirements" :=
  c7_failed_after_max_attempts oracleC7 qssC7 "topic" 3 2 (by omega)
    (fun i _ => rfl)
    (by
      intro j h1 h2
      have hj : j = 1 ∨ j = 2 := by omega
      rcases hj with rfl | rfl <;> decide)
